import Mathlib

/-!
Shallow embedding of the field-extraction and classification pipeline of
`legal_doc_analyzer.py` (class `DocumentAnalyzer` plus the dataclasses
`MonetaryAmount`, `LegalSection`, `Metadata`, `AnalysisResult`).

Modelling conventions:
* Python strings are `String` / `List Char`; the ASCII fragments relevant to
  the patterns are modelled exactly (`\d` as '0'-'9', `\s` as the six ASCII
  whitespace characters, `re.IGNORECASE` as ASCII case folding).
* Python's `re` backtracking engine (leftmost match, greedy/lazy quantifiers,
  alternation-free patterns of this file) is modelled by a continuation-passing
  matcher `mrun` over a small pattern type `RE`.  A fuel parameter bounds the
  unfolding of `star`/`lazystar`; every starred subpattern of this code
  consumes at least one character per iteration, so fuel `length + 1` is slack.
* Python `float` values reached by the pipeline (amounts, confidence scores)
  are decimal numbers that are exact in IEEE double for every value the code
  can produce from its patterns; they are modelled as `ℚ`.
* `datetime` values are calendar dates `Date` (the pipeline never sets a time
  of day); `datetime.strptime` is modelled by exact-format parsers including
  calendar validation and the 69-pivot for `%y`.
* Exceptions are modelled with `Except PyErr`; external collaborators
  (`langdetect.detect`, the translator) are function parameters, where `none`
  models the collaborator raising.
-/

namespace LegalDoc

/-- Python `float` values produced by the pipeline, modelled exactly. -/
abbrev PyFloat := ℚ

/-- Exceptions that the modelled code can raise: `IndexError` from
`match.group(1)` on a group-less pattern, and `TypeError` from calling a
dataclass constructor with an unexpected keyword argument. -/
inductive PyErr where
  | indexError : PyErr
  | typeError : String → PyErr
deriving DecidableEq

/-- Message text used by `process_document`'s `except` branch
(`f"Error processing document: {str(e)}"`).  For `IndexError` this is the
`re` module's stable message; for `TypeError` the exact CPython text varies
by version, so a representative rendering is used (no claim depends on it). -/
def errMsg : PyErr → String
  | .indexError => "no such group"
  | .typeError kw => "__init__() got an unexpected keyword argument " ++ kw

instance {ε α : Type} [DecidableEq ε] [DecidableEq α] : DecidableEq (Except ε α) := fun a b =>
  match a, b with
  | .ok x, .ok y =>
    if h : x = y then isTrue (by rw [h]) else isFalse (by intro hc; cases hc; exact h rfl)
  | .error x, .error y =>
    if h : x = y then isTrue (by rw [h]) else isFalse (by intro hc; cases hc; exact h rfl)
  | .ok _, .error _ => isFalse (by intro hc; cases hc)
  | .error _, .ok _ => isFalse (by intro hc; cases hc)

/-- Calendar date, the content of the `datetime` values produced by
`extract_dates` (time of day is always midnight and is omitted). -/
structure Date where
  year : Nat
  month : Nat
  day : Nat
deriving DecidableEq

/-- `datetime` comparison restricted to dates: lexicographic. -/
def dateLtB (a b : Date) : Bool :=
  decide (a.year < b.year ∨ (a.year = b.year ∧
    (a.month < b.month ∨ (a.month = b.month ∧ a.day < b.day))))

/-- Dataclass `MonetaryAmount` (source lines 18-21). -/
structure MonetaryAmount where
  amount : PyFloat
  currency : String
deriving DecidableEq

/-- Dataclass `LegalSection` (source lines 23-26). -/
structure LegalSection where
  section_number : String
  description : Option String
deriving DecidableEq

/-- Dataclass `Metadata` (source lines 28-31). -/
structure Metadata where
  original_language : String
  confidence_score : PyFloat
deriving DecidableEq

/-- Dataclass `AnalysisResult` (source lines 33-46).  Note that it has NO
`translated_text` field; `analyze_text` nevertheless passes a
`translated_text=` keyword when constructing it.  `legal_sections` defaults to
Python `None`, so it is an `Option` of a list. -/
structure AnalysisResult where
  metadata : Metadata
  text : Option String := none
  client_name : Option String := none
  pan_number : Option String := none
  gstin : Option String := none
  notice_type : Option String := none
  notice_date : Option Date := none
  penalty_amount : Option MonetaryAmount := none
  legal_sections : Option (List LegalSection) := none
  compliance_deadline : Option Date := none
  issuing_officer : Option String := none
  issuing_office : Option String := none
deriving DecidableEq

/-! ### Character classes (ASCII, as used by the source's patterns) -/

/-- Python `\d` on the ASCII range. -/
def isDigitC (c : Char) : Bool := '0' ≤ c && c ≤ '9'

/-- Python `[A-Z]`. -/
def isUpperC (c : Char) : Bool := 'A' ≤ c && c ≤ 'Z'

/-- Python `[A-Za-z]`, and `[A-Z]`/`[a-z]` under `re.IGNORECASE`. -/
def isAlphaC (c : Char) : Bool := isUpperC c || ('a' ≤ c && c ≤ 'z')

/-- Python `\s` on the ASCII range: space, tab, newline, return, vertical
tab, form feed. -/
def isSpaceC (c : Char) : Bool :=
  c = ' ' || c = '\t' || c = '\n' || c = '\r' || c = '\x0b' || c = '\x0c'

/-- ASCII lower-casing, the case folding performed by `re.IGNORECASE` on the
characters this code matches. -/
def lowerA (c : Char) : Char :=
  if isUpperC c then Char.ofNat (c.toNat + 32) else c

/-! ### A small backtracking regular-expression engine

`mrun` is a continuation-passing matcher reproducing Python `re`'s
backtracking search order: concatenation threads the continuation,
greedy `opt`/`star` try the longer alternative first, `lazystar` tries the
shorter alternative first.  The patterns of this file use no alternation. -/

/-- Pattern syntax: single-character class, empty pattern, concatenation,
greedy option (`?`), greedy star (`*`), lazy star (`*?`). -/
inductive RE where
  | cls (p : Char → Bool)
  | eps
  | cat (a b : RE)
  | opt (r : RE)
  | star (r : RE)
  | lazystar (r : RE)

/-- Greedy-star loop: repeat the body matcher `m` as many times as possible
before yielding to the continuation, backtracking one iteration at a time.
`f` bounds the number of iterations; every starred subpattern of this
development consumes at least one character per iteration, so a bound of
`s.length + 1` taken at star entry is slack. -/
def mstar (m : List Char → (List Char → Option α) → Option α) :
    Nat → List Char → (List Char → Option α) → Option α
  | 0, s, k => k s
  | f + 1, s, k =>
    match m s fun s2 => mstar m f s2 k with
    | some v => some v
    | none => k s

/-- Lazy-star loop (`*?`): yield to the continuation first, adding
iterations of the body matcher `m` one at a time on failure. -/
def mlazy (m : List Char → (List Char → Option α) → Option α) :
    Nat → List Char → (List Char → Option α) → Option α
  | 0, s, k => k s
  | f + 1, s, k =>
    match k s with
    | some v => some v
    | none => m s fun s2 => mlazy m f s2 k

/-- Backtracking matcher.  `mrun re s k` attempts to match `re` against a
prefix of `s` and passes the remaining suffix to the continuation `k`,
exploring alternatives in Python `re`'s preference order (greedy prefers the
longer alternative, lazy the shorter) and returning the first success. -/
def mrun : RE → List Char → (List Char → Option α) → Option α
  | .eps, s, k => k s
  | .cls _, [], _ => none
  | .cls p, c :: s, k => if p c then k s else none
  | .cat a b, s, k => mrun a s fun s2 => mrun b s2 k
  | .opt r, s, k =>
    match mrun r s k with
    | some v => some v
    | none => k s
  | .star r, s, k => mstar (fun s2 k2 => mrun r s2 k2) (s.length + 1) s k
  | .lazystar r, s, k => mlazy (fun s2 k2 => mrun r s2 k2) (s.length + 1) s k

/-- Concatenation of a list of patterns. -/
def reCat (l : List RE) : RE := l.foldr .cat .eps

/-- Class-sequence pattern (a fixed-shape pattern such as PAN or GSTIN). -/
def clsSeqRE (ps : List (Char → Bool)) : RE := reCat (ps.map RE.cls)

/-- Literal character. -/
def chrRE (c : Char) : RE := .cls (fun x => x = c)

/-- Literal character under `re.IGNORECASE` (ASCII folding). -/
def chrCI (c : Char) : RE := .cls (fun x => lowerA x = lowerA c)

/-- Literal string under `re.IGNORECASE`. -/
def litCI (s : String) : RE := reCat (s.toList.map chrCI)

/-- Attempt a match of `re` anchored at the start of `s`; on success return
the consumed prefix and the remaining suffix. -/
def tryAt (re : RE) (s : List Char) : Option (List Char × List Char) :=
  match mrun re s some with
  | some rest => some (s.take (s.length - rest.length), rest)
  | none => none

/-- Leftmost match (`re.search`): returns the text before the match, the
matched text, and the text after it. -/
def reFind (re : RE) : List Char → Option (List Char × List Char × List Char)
  | [] =>
    match tryAt re [] with
    | some (m, rest) => some ([], m, rest)
    | none => none
  | c :: s =>
    match tryAt re (c :: s) with
    | some (m, rest) => some ([], m, rest)
    | none =>
      match reFind re s with
      | some (pre, m, rest) => some (c :: pre, m, rest)
      | none => none

/-- Non-overlapping scan (`re.finditer`), fuelled; at each position the
engine attempts an anchored match and on success continues after it,
otherwise advances one character.  (The patterns used here can never match
the empty string, so the empty-match branch only guards termination.) -/
def findIterF : Nat → RE → List Char → List (List Char)
  | 0, _, _ => []
  | _ + 1, re, [] =>
    match tryAt re [] with
    | some (m, _) => if m.isEmpty then [] else [m]
    | none => []
  | f + 1, re, c :: t =>
    match tryAt re (c :: t) with
    | some (m, rest) => if m.isEmpty then findIterF f re t else m :: findIterF f re rest
    | none => findIterF f re t

/-- All non-overlapping matches of `re` in `s`, leftmost first. -/
def findIter (re : RE) (s : List Char) : List (List Char) :=
  findIterF (s.length + 1) re s

/-- Anchored match of `pre` followed by the capturing group `grp` (the group
is the final element of every captured pattern in this code); returns the
text consumed by the group. -/
def tryGroupAt (pre grp : RE) (s : List Char) : Option (List Char) :=
  mrun pre s fun s1 =>
    mrun grp s1 fun s2 => some (s1.take (s1.length - s2.length))

/-- Leftmost match of `pre` followed by group `grp` (`re.search` plus
`match.group(1)`). -/
def searchGroup (pre grp : RE) : List Char → Option (List Char)
  | [] => tryGroupAt pre grp []
  | c :: s =>
    match tryGroupAt pre grp (c :: s) with
    | some g => some g
    | none => searchGroup pre grp s

/-- Anchored match of `pre ++ grp` returning the group text and the suffix
after the whole match (used by `re.findall`, where the group closes the
pattern). -/
def tryGroupRest (pre grp : RE) (s : List Char) : Option (List Char × List Char) :=
  mrun pre s fun s1 =>
    mrun grp s1 fun s2 =>
      some (s1.take (s1.length - s2.length), s2)

/-- Fuelled `re.findall` for a pattern with one trailing group: collect the
group text of every non-overlapping match, scanning left to right. -/
def findAllGroupF : Nat → RE → RE → List Char → List (List Char)
  | 0, _, _, _ => []
  | f + 1, pre, grp, s =>
    match tryGroupRest pre grp s with
    | some (g, rest) => g :: findAllGroupF f pre grp rest
    | none =>
      match s with
      | [] => []
      | _ :: t => findAllGroupF f pre grp t

/-- `re.findall` for a pattern with one trailing group. -/
def findAllGroup (pre grp : RE) (s : List Char) : List (List Char) :=
  findAllGroupF (s.length + 1) pre grp s

/-! ### Shared helpers: stripping, splitting, case-insensitive containment -/

/-- Python `str.strip()` on the ASCII whitespace the pipeline meets. -/
def pyStripL (l : List Char) : List Char :=
  ((l.dropWhile isSpaceC).reverse.dropWhile isSpaceC).reverse

/-- Python `str.strip()` at `String` type. -/
def pyStrip (s : String) : String := String.mk (pyStripL s.toList)

/-- Python `str.split(sep)` for a single-character separator. -/
def splitOnC (sep : Char) : List Char → List (List Char)
  | [] => [[]]
  | c :: t =>
    if c = sep then [] :: splitOnC sep t
    else
      match splitOnC sep t with
      | h :: r => (c :: h) :: r
      | [] => [[c]]

/-- Case-insensitive list-prefix test (ASCII folding). -/
def leadsCI : List Char → List Char → Bool
  | [], _ => true
  | _ :: _, [] => false
  | p :: ps, c :: cs => lowerA p = lowerA c && leadsCI ps cs

/-- Case-insensitive substring test: `re.search(kw, text, re.IGNORECASE)`
for a keyword `kw` containing no regex metacharacters. -/
def containsCI (pat : List Char) : List Char → Bool
  | [] => pat.isEmpty
  | c :: t => leadsCI pat (c :: t) || containsCI pat t

/-! ### Numeric and date parsing -/

/-- Value of a non-empty all-digit string, else `none` (models the digit
fields consumed by `strptime` and by `float`). -/
def digitsVal (l : List Char) : Option Nat :=
  if l.isEmpty then none
  else if l.all isDigitC then
    some (l.foldl (fun n c => 10 * n + (c.toNat - 48)) 0)
  else none

/-- Python `float(s)` restricted to the shapes producible by the amount
group after comma-stripping: `digits` or `digits.digits`; anything else is a
`ValueError`, modelled as `none`. -/
def parseFloat (l : List Char) : Option PyFloat :=
  match splitOnC '.' l with
  | [a] => (digitsVal a).map fun x => (x : ℚ)
  | [a, b] =>
    match digitsVal a, digitsVal b with
    | some x, some y =>
      some (Rat.divInt (Int.ofNat (x * 10 ^ b.length + y)) (Int.ofNat (10 ^ b.length)))
    | _, _ => none
  | _ => none

/-- Gregorian leap year, as implemented by `datetime`. -/
def isLeap (y : Nat) : Bool := y % 4 = 0 && (y % 100 ≠ 0 || y % 400 = 0)

/-- Days in a month, as validated by `datetime`. -/
def daysInMonth (y m : Nat) : Nat :=
  if m = 2 then (if isLeap y then 29 else 28)
  else if m = 4 ∨ m = 6 ∨ m = 9 ∨ m = 11 then 30
  else 31

/-- Construct a `datetime`-valid date or fail (`ValueError`). -/
def mkValidDate (y m d : Nat) : Option Date :=
  if 1 ≤ y ∧ y ≤ 9999 ∧ 1 ≤ m ∧ m ≤ 12 ∧ 1 ≤ d ∧ d ≤ daysInMonth y m then
    some ⟨y, m, d⟩
  else none

/-- The `%y` two-digit-year pivot used by `strptime`: 00-68 ↦ 2000s,
69-99 ↦ 1900s. -/
def mapY2 (v : Nat) : Nat := if v ≤ 68 then 2000 + v else 1900 + v

/-- `datetime.strptime(s, fmt)` on the three-field date strings produced by
the date regexes, given the already-split fields in day, month, year order
with `yearIsTwoDigit` selecting `%y` vs `%Y`. -/
def strptimeDMY (a b c : List Char) (yearIsTwoDigit : Bool) : Option Date :=
  match digitsVal a, digitsVal b, digitsVal c with
  | some d, some m, some yv =>
    mkValidDate (if yearIsTwoDigit then mapY2 yv else yv) m d
  | _, _, _ => none

/-- The per-match date parsing of `extract_dates` (source lines 154-168):
choose the `strptime` format from the separator and field lengths, catching
`ValueError` as `none`. -/
def parse_date_str (l : List Char) : Option Date :=
  if l.contains '/' then
    match splitOnC '/' l with
    | [a, b, c] => strptimeDMY a b c (c.length = 2)
    | _ => none
  else if l.contains '-' then
    match splitOnC '-' l with
    | [a, b, c] =>
      if a.length = 4 then
        match digitsVal a, digitsVal b, digitsVal c with
        | some y, some m, some d => mkValidDate y m d
        | _, _, _ => none
      else strptimeDMY a b c false
    | _ => none
  else none

/-! ### The source's patterns -/

/-- Digit class pattern `\d`. -/
def dRE : RE := .cls isDigitC

/-- `\d{1,2}` (greedy). -/
def d12 : RE := .cat dRE (.opt dRE)

/-- `\d{1,3}` (greedy). -/
def d13 : RE := .cat dRE (.opt (.cat dRE (.opt dRE)))

/-- Whitespace class `\s`. -/
def sRE : RE := .cls isSpaceC

/-- `.` (any character except newline). -/
def dotRE : RE := .cls (fun c => c ≠ '\n')

/-- `.+` (greedy). -/
def dotPlus : RE := .cat dotRE (.star dotRE)

/-- Letter class (`[A-Za-z]`, and `[A-Z]`/`[a-z]` under `IGNORECASE`). -/
def aRE : RE := .cls isAlphaC

/-- Character classes of the PAN pattern
`[A-Z]{5}[0-9]{4}[A-Z]{1}` (source line 131). -/
def panClasses : List (Char → Bool) :=
  List.replicate 5 isUpperC ++ List.replicate 4 isDigitC ++ [isUpperC]

/-- The PAN pattern. -/
def panRE : RE := clsSeqRE panClasses

/-- Character classes of the GSTIN pattern
`\d{2}[A-Z]{5}\d{4}[A-Z]{1}[1-9A-Z]{1}Z[0-9A-Z]{1}` (source line 137).
The middle ten classes are exactly `panClasses`. -/
def gstinClasses : List (Char → Bool) :=
  [isDigitC, isDigitC] ++ panClasses ++
    [fun c => ('1' ≤ c && c ≤ '9') || isUpperC c,
     fun c => c = 'Z',
     fun c => isDigitC c || isUpperC c]

/-- The GSTIN pattern. -/
def gstinRE : RE := clsSeqRE gstinClasses

/-- `\d{1,2}/\d{1,2}/\d{4}` (date format 1). -/
def dateP1 : RE := reCat [d12, chrRE '/', d12, chrRE '/', dRE, dRE, dRE, dRE]

/-- `\d{1,2}-\d{1,2}-\d{4}` (date format 2). -/
def dateP2 : RE := reCat [d12, chrRE '-', d12, chrRE '-', dRE, dRE, dRE, dRE]

/-- `\d{4}-\d{1,2}-\d{1,2}` (date format 3). -/
def dateP3 : RE := reCat [dRE, dRE, dRE, dRE, chrRE '-', d12, chrRE '-', d12]

/-- `\d{1,2}/\d{1,2}/\d{2}` (date format 4). -/
def dateP4 : RE := reCat [d12, chrRE '/', d12, chrRE '/', dRE, dRE]

/-- The date patterns in the source's fixed order (source lines 143-148). -/
def date_formats : List RE := [dateP1, dateP2, dateP3, dateP4]

/-- The grouped amount `(\d{1,3}(?:,\d{3})*(?:\.\d{2})?)`
(source lines 174-176). -/
def amountGrp : RE :=
  reCat [d13, .star (reCat [chrRE ',', dRE, dRE, dRE]),
         .opt (reCat [chrRE '.', dRE, dRE])]

/-- `Rs\.?\s*` before the amount group (pattern 1, `IGNORECASE`). -/
def rsPre : RE := reCat [chrCI 'R', chrCI 's', .opt (chrRE '.'), .star sRE]

/-- `INR\s*` before the amount group (pattern 2, `IGNORECASE`). -/
def inrPre : RE := reCat [chrCI 'I', chrCI 'N', chrCI 'R', .star sRE]

/-- `Penalty.*?\s*` before the amount group (pattern 3, `IGNORECASE`). -/
def penPre : RE := reCat [litCI "Penalty", .lazystar dotRE, .star sRE]

/-- `Section\s*` before the section group (source line 191, `IGNORECASE`). -/
def sectionPre : RE := reCat [litCI "Section", .star sRE]

/-- The section group `(\d+[A-Za-z]*(?:\s*\([^)]+\))?)`. -/
def sectionGrp : RE :=
  reCat [dRE, .star dRE, .star aRE,
         .opt (reCat [.star sRE, chrRE '(',
                      .cls (fun c => c ≠ ')'), .star (.cls (fun c => c ≠ ')')),
                      chrRE ')'])]

/-- `Issuing Office:\s*` before the `(.+)` group (office pattern 1,
`IGNORECASE`, source line 247). -/
def officeP1pre : RE := reCat [litCI "Issuing Office:", .star sRE]

/-- `Office\s*of\s*the\s*` before the `(.+)` group (office pattern 2,
`IGNORECASE`, source line 248). -/
def officeP2pre : RE :=
  reCat [litCI "Office", .star sRE, litCI "of", .star sRE, litCI "the", .star sRE]

/-- `[A-Z][a-z]+(?:\s+[A-Z][a-z]+)*\s*Income Tax Office` (office pattern 3,
`IGNORECASE`, source line 249).  Note: this pattern has NO capturing group. -/
def officeP3 : RE :=
  reCat [aRE, aRE, .star aRE,
         .star (reCat [sRE, .star sRE, aRE, aRE, .star aRE]),
         .star sRE, litCI "Income Tax Office"]

/-! ### The extractors (source lines 129-256) -/

/-- `extract_pan_number` (source lines 129-133): first match of the PAN
pattern, or `None`. -/
def extract_pan_number (text : String) : Option String :=
  match reFind panRE text.toList with
  | some (_, m, _) => some (String.mk m)
  | none => none

/-- `extract_gstin` (source lines 135-139): first match of the GSTIN
pattern, or `None`. -/
def extract_gstin (text : String) : Option String :=
  match reFind gstinRE text.toList with
  | some (_, m, _) => some (String.mk m)
  | none => none

/-- `extract_dates` (source lines 141-169): for each of the four patterns in
order, all non-overlapping matches, each parsed by the separator/field-length
rule; `ValueError` candidates are dropped. -/
def extract_dates (text : String) : List Date :=
  (date_formats.map fun fmt =>
    (findIter fmt text.toList).filterMap parse_date_str).flatten

/-- One amount pattern of `extract_penalty_amount`: search, then
`float(group(1).replace(',',''))`, where a parse failure skips the pattern. -/
def patAmount (pre : RE) (text : String) : Option PyFloat :=
  match searchGroup pre amountGrp text.toList with
  | some g => parseFloat (g.filter fun c => c ≠ ',')
  | none => none

/-- `extract_penalty_amount` (source lines 171-187): try the three amount
patterns in fixed order, first success wins, currency always `"INR"`. -/
def extract_penalty_amount (text : String) : Option MonetaryAmount :=
  match patAmount rsPre text with
  | some q => some ⟨q, "INR"⟩
  | none =>
    match patAmount inrPre text with
    | some q => some ⟨q, "INR"⟩
    | none =>
      match patAmount penPre text with
      | some q => some ⟨q, "INR"⟩
      | none => none

/-- `extract_legal_sections` (source lines 189-193): `findall` of the
section pattern, one `LegalSection(section.strip())` per match, in document
order, `description` always `None`. -/
def extract_legal_sections (text : String) : List LegalSection :=
  (findAllGroup sectionPre sectionGrp text.toList).map fun g =>
    ⟨String.mk (pyStripL g), none⟩

/-- `extract_issuing_office` (source lines 244-256): try the three office
patterns in order and return `match.group(1).strip()` of the first match.
The third pattern has no capturing group, so a first match by it makes
`match.group(1)` raise `IndexError`, which the method does not catch. -/
def extract_issuing_office (text : String) : Except PyErr (Option String) :=
  match searchGroup officeP1pre dotPlus text.toList with
  | some g => .ok (some (String.mk (pyStripL g)))
  | none =>
    match searchGroup officeP2pre dotPlus text.toList with
    | some g => .ok (some (String.mk (pyStripL g)))
    | none =>
      match reFind officeP3 text.toList with
      | some _ => .error .indexError
      | none => .ok none

/-! ### Language handling and the assembly pipeline (source lines 59-71,
107-127, 195-242, 258-280)

External collaborators are function parameters:
* `det` models `langdetect.detect`; `none` models the detector raising.
* `tr` models `self.translator.translate(chunk, src=..., dest='en').text`;
  `none` models the per-chunk translation raising. -/

/-- `detect_document_language` (source lines 59-71): detect on the first
500 characters, group southern-script codes to `"te"` and northern-script
codes to `"hi"`, default `"en"` on any detector failure. -/
def detect_document_language (det : String → Option String) (text : String) : String :=
  match det (text.take 500) with
  | none => "en"
  | some lang =>
    if ["te", "kn", "ml", "ta"].contains lang then "te"
    else if ["hi", "mr", "bn", "pa", "gu"].contains lang then "hi"
    else lang

/-- Split into 5000-character chunks (`[text[i:i+5000] for i in range(0, len(text), 5000)]`). -/
def chunksF : Nat → List Char → List (List Char)
  | 0, _ => []
  | _, [] => []
  | f + 1, s => s.take 5000 :: chunksF f (s.drop 5000)

/-- `translate_text` (source lines 107-127): identity for English; otherwise
translate 5000-character chunks independently, keeping a chunk unchanged when
its translation fails, and re-join with single spaces (`' '.join`). -/
def translate_text (tr : String → String → Option String)
    (text : String) (src : String) : String :=
  if src = "en" then text
  else
    String.intercalate " "
      ((chunksF (text.length + 1) text.toList).map fun c =>
        match tr (String.mk c) src with
        | some t => t
        | none => String.mk c)

/-- The notice-type keyword table (source lines 218-223), in the source's
insertion order. -/
def notice_keywords : List (String × List String) :=
  [("Scrutiny Notice", ["scrutiny", "examination", "verification"]),
   ("Demand Notice", ["demand", "payable", "outstanding"]),
   ("Penalty Notice", ["penalty", "fine", "punishment"]),
   ("Intimation", ["intimation", "information", "communication"])]

/-- The notice-type classification loop (source lines 225-228): first
category any of whose keywords occurs case-insensitively in the text. -/
def classifyNotice (text : String) : Option String :=
  (notice_keywords.find? fun p =>
    p.2.any fun kw => containsCI kw.toList text.toList).map fun p => p.1

/-- The value of `max(dates)` for a non-empty list: Python `max` keeps the
current value unless a later element is strictly greater. -/
def dateMaxL (d : Date) (ds : List Date) : Date :=
  ds.foldl (fun acc x => if dateLtB acc x then x else acc) d

/-- The field values computed by `analyze_text` for the `AnalysisResult`
constructor call (source lines 206-228 and the argument expressions of lines
230-241), evaluated on the (possibly translated) text. -/
structure AssembledArgs where
  pan_number : Option String
  gstin : Option String
  notice_type : Option String
  notice_date : Option Date
  penalty_amount : Option MonetaryAmount
  legal_sections : List LegalSection
  compliance_deadline : Option Date
deriving DecidableEq

/-- The constructor-argument computations of `analyze_text`:
`notice_date = max(dates) if dates else None` and
`compliance_deadline = max(dates) if len(dates) > 1 else None`. -/
def assembled_args (tt : String) : AssembledArgs :=
  let dates := extract_dates tt
  { pan_number := extract_pan_number tt
    gstin := extract_gstin tt
    notice_type := classifyNotice tt
    notice_date :=
      match dates with
      | [] => none
      | d :: ds => some (dateMaxL d ds)
    penalty_amount := extract_penalty_amount tt
    legal_sections := extract_legal_sections tt
    compliance_deadline :=
      if 1 < dates.length then
        match dates with
        | [] => none
        | d :: ds => some (dateMaxL d ds)
      else none }

/-- The minimal record returned for empty extracted text (source lines
197-201). -/
def noTextRecord : AnalysisResult :=
  { metadata := ⟨"unknown", 0⟩, text := some "No text extracted from document" }

/-- `analyze_text` (source lines 195-242).  For non-empty text the method
computes every constructor argument (only `extract_issuing_office`, evaluated
as the last argument expression, can raise) and then calls
`AnalysisResult(..., translated_text=translated_text, ...)`.  The dataclass
declares no `translated_text` field (source lines 33-46), so the constructor
call itself raises `TypeError` on every non-empty input; the computed
arguments are exposed through `assembled_args`. -/
def analyze_text (det : String → Option String)
    (tr : String → String → Option String) (text : String) :
    Except PyErr AnalysisResult :=
  if (pyStripL text.toList).isEmpty then .ok noTextRecord
  else
    let lang := detect_document_language det text
    let tt := if lang ≠ "en" then translate_text tr text lang else text
    match extract_issuing_office tt with
    | .error e => .error e
    | .ok _ => .error (.typeError "translated_text")

/-- The body of `process_document`'s `try` block (source lines 260-274):
the existence check, text acquisition, and `analyze_text`.  The external
OCR/file layer is modelled by `fs`, mapping a path to the extracted text or
`none` when `os.path.exists` is false (the OCR helpers catch their own
errors and return a string). -/
def process_documentE (fs : String → Option String)
    (det : String → Option String) (tr : String → String → Option String)
    (doc_path : String) : Except PyErr AnalysisResult :=
  match fs doc_path with
  | none => .ok { metadata := ⟨"unknown", 0⟩, text := some "Document not found" }
  | some text => analyze_text det tr text

/-- `process_document` (source lines 258-280): the `try`/`except` wrapper.
Every exception from the body is caught and converted into the minimal
error record, so the method always returns an `AnalysisResult`. -/
def process_document (fs : String → Option String)
    (det : String → Option String) (tr : String → String → Option String)
    (doc_path : String) : AnalysisResult :=
  match process_documentE fs det tr doc_path with
  | .ok r => r
  | .error e =>
    { metadata := ⟨"unknown", 0⟩
      text := some ("Error processing document: " ++ errMsg e) }

/-- Detector instance returning English, the behaviour of `langdetect` on
the English documents of the claims (and the default on detector failure). -/
def detEn : String → Option String := fun _ => some "en"

/-- Translator instance; unused on the English path. -/
def trId : String → String → Option String := fun c _ => some c

/-! ### Characterization of class-sequence searches (PAN, GSTIN)

A class-sequence pattern (a fixed list of single-character classes) matches
at a position exactly when the classes hold pointwise, and `re.search`
returns the window at the leftmost such position. -/

/-- Pointwise match of a class list against a prefix of a string. -/
def clsMatch : List (Char → Bool) → List Char → Bool
  | [], _ => true
  | _ :: _, [] => false
  | p :: ps, c :: s => p c && clsMatch ps s

/-- A string is exactly of the shape described by a class list. -/
def hasShape (ps : List (Char → Bool)) (m : List Char) : Bool :=
  (m.length == ps.length) && clsMatch ps m

theorem clsMatch_length {ps : List (Char → Bool)} {s : List Char}
    (h : clsMatch ps s = true) : ps.length ≤ s.length := by
  induction ps generalizing s with
  | nil => exact Nat.zero_le _
  | cons p ps ih =>
    cases s with
    | nil => simp [clsMatch] at h
    | cons c t =>
      simp only [clsMatch, Bool.and_eq_true] at h
      simpa using Nat.succ_le_succ (ih h.2)

theorem clsMatch_take {ps : List (Char → Bool)} {s : List Char}
    (h : clsMatch ps s = true) : clsMatch ps (s.take ps.length) = true := by
  induction ps generalizing s with
  | nil => simp [clsMatch]
  | cons p ps ih =>
    cases s with
    | nil => simp [clsMatch] at h
    | cons c t =>
      simp only [clsMatch, Bool.and_eq_true] at h
      simpa [clsMatch, h.1] using ih h.2

theorem clsMatch_append {ps : List (Char → Bool)} {m rest : List Char}
    (h : clsMatch ps m = true) : clsMatch ps (m ++ rest) = true := by
  induction ps generalizing m with
  | nil => simp [clsMatch]
  | cons p ps ih =>
    cases m with
    | nil => simp [clsMatch] at h
    | cons c t =>
      simp only [clsMatch, Bool.and_eq_true] at h
      simpa [clsMatch, h.1] using ih h.2

/-- A match of the classes at a position yields a shape-witnessing window. -/
theorem hasShape_take {ps : List (Char → Bool)} {s : List Char}
    (h : clsMatch ps s = true) : hasShape ps (s.take ps.length) = true := by
  have hl := clsMatch_length h
  simp [hasShape, List.length_take, Nat.min_eq_left hl, clsMatch_take h]

/-- Conversely, a shape-witnessing window followed by anything matches. -/
theorem clsMatch_of_shape {ps : List (Char → Bool)} {m rest : List Char}
    (h : hasShape ps m = true) : clsMatch ps (m ++ rest) = true := by
  simp only [hasShape, Bool.and_eq_true, beq_iff_eq] at h
  exact clsMatch_append h.2

theorem mrun_clsSeq (ps : List (Char → Bool)) (s : List Char) :
    mrun (clsSeqRE ps) s Option.some =
      if clsMatch ps s then some (s.drop ps.length) else none := by
  induction ps generalizing s with
  | nil => simp [clsSeqRE, reCat, mrun, clsMatch]
  | cons p ps ih =>
    have hsq : clsSeqRE (p :: ps) = .cat (.cls p) (clsSeqRE ps) := rfl
    cases s with
    | nil => simp [hsq, mrun, clsMatch]
    | cons c t =>
      have ih' := ih t
      by_cases hp : p c
      · rw [hsq]
        show mrun (.cls p) (c :: t) (fun s2 => mrun (clsSeqRE ps) s2 some) = _
        simp [mrun, hp, clsMatch, ih']
      · rw [hsq]
        show mrun (.cls p) (c :: t) (fun s2 => mrun (clsSeqRE ps) s2 some) = _
        simp [mrun, hp, clsMatch]

theorem tryAt_clsSeq (ps : List (Char → Bool)) (s : List Char) :
    tryAt (clsSeqRE ps) s =
      if clsMatch ps s then some (s.take ps.length, s.drop ps.length)
      else none := by
  unfold tryAt
  rw [mrun_clsSeq]
  by_cases h : clsMatch ps s
  · have hl := clsMatch_length h
    simp [h, List.length_drop, Nat.sub_sub_self hl]
  · simp [h]

/-- Full characterization of `reFind` for a non-empty class sequence: a
`some` answer decomposes the string around the leftmost shape window; a
`none` answer means no position matches. -/
theorem reFind_clsSeq (ps : List (Char → Bool)) (hne : ps ≠ []) (s : List Char) :
    (∀ pre m rest, reFind (clsSeqRE ps) s = some (pre, m, rest) →
      s = pre ++ m ++ rest ∧ hasShape ps m = true ∧
        clsMatch ps (s.drop pre.length) = true ∧
        ∀ i, i < pre.length → clsMatch ps (s.drop i) = false) ∧
    (reFind (clsSeqRE ps) s = none → ∀ i, clsMatch ps (s.drop i) = false) := by
  induction s with
  | nil =>
    have h0 : clsMatch ps [] = false := by
      cases ps with
      | nil => exact absurd rfl hne
      | cons p ps => simp [clsMatch]
    constructor
    · intro pre m rest h
      simp only [reFind, tryAt_clsSeq, h0] at h
      simp at h
    · intro _ i
      simp [h0]
  | cons c t ih =>
    cases hm : clsMatch ps (c :: t) with
    | true =>
      have hstep : reFind (clsSeqRE ps) (c :: t) =
          some ([], (c :: t).take ps.length, (c :: t).drop ps.length) := by
        simp [reFind, tryAt_clsSeq, hm]
      constructor
      · intro pre m rest h
        rw [hstep] at h
        simp only [Option.some.injEq, Prod.mk.injEq] at h
        obtain ⟨h1, h2, h3⟩ := h
        subst h1; subst h2; subst h3
        refine ⟨(List.take_append_drop _ _).symm, hasShape_take hm, ?_, ?_⟩
        · simpa using hm
        · intro i hi; simp at hi
      · intro h
        rw [hstep] at h
        simp at h
    | false =>
      have hstep : reFind (clsSeqRE ps) (c :: t) =
          match reFind (clsSeqRE ps) t with
          | some (pre, m, rest) => some (c :: pre, m, rest)
          | none => none := by
        simp [reFind, tryAt_clsSeq, hm]
      constructor
      · intro pre m rest h
        rw [hstep] at h
        cases hrec : reFind (clsSeqRE ps) t with
        | none => rw [hrec] at h; simp at h
        | some v =>
          obtain ⟨pre1, m1, rest1⟩ := v
          rw [hrec] at h
          simp only [Option.some.injEq, Prod.mk.injEq] at h
          obtain ⟨h1, h2, h3⟩ := h
          obtain ⟨g1, g2, g3, g4⟩ := ih.1 pre1 m1 rest1 hrec
          subst h2; subst h3; subst h1
          refine ⟨by simp [g1], g2, by simpa using g3, ?_⟩
          intro i hi
          cases i with
          | zero => simpa using hm
          | succ j =>
            simp only [List.length_cons, Nat.succ_lt_succ_iff] at hi
            simpa using g4 j hi
      · intro h i
        rw [hstep] at h
        cases hrec : reFind (clsSeqRE ps) t with
        | some v => obtain ⟨a, b, c2⟩ := v; rw [hrec] at h; simp at h
        | none =>
          cases i with
          | zero => simpa using hm
          | succ j => simpa using ih.2 hrec j

theorem clsMatch_append_split {ps qs : List (Char → Bool)} {s : List Char} :
    clsMatch (ps ++ qs) s = true ↔
      clsMatch ps s = true ∧ clsMatch qs (s.drop ps.length) = true := by
  induction ps generalizing s with
  | nil => simp [clsMatch]
  | cons p ps ih =>
    cases s with
    | nil => simp [clsMatch]
    | cons c t => simp [clsMatch, ih, Bool.and_eq_true, and_assoc]

/-- Any text containing a PAN-shaped window makes the PAN extractor
succeed. -/
theorem extract_pan_of_shape {s : String} {pre m post : List Char}
    (hsplit : s.toList = pre ++ m ++ post)
    (hshape : hasShape panClasses m = true) :
    extract_pan_number s ≠ none := by
  have hne : panClasses ≠ [] := by simp [panClasses]
  intro hnone
  have hf : reFind panRE s.toList = none := by
    unfold extract_pan_number at hnone
    cases hf : reFind panRE s.toList with
    | none => rfl
    | some v => obtain ⟨a, b, c⟩ := v; rw [hf] at hnone; simp at hnone
  have hall := (reFind_clsSeq panClasses hne s.toList).2 hf pre.length
  have : clsMatch panClasses (s.toList.drop pre.length) = true := by
    rw [hsplit, List.append_assoc, List.drop_left]
    exact clsMatch_of_shape hshape
  rw [this] at hall
  exact Bool.noConfusion hall

theorem extract_pan_eq_none_of_find {s : String}
    (hf : reFind panRE s.toList = none) : extract_pan_number s = none := by
  unfold extract_pan_number
  rw [hf]

/-- C7: for every text containing at least one substring of shape
5 uppercase letters, 4 digits, 1 uppercase letter, `extract_pan_number`
returns exactly the first such substring in document order (the match whose
preceding prefix is shortest); for every text containing no such substring
it returns `None`. -/
theorem C7_pan_first_match (s : String) :
    ((∃ pre m post, s.toList = pre ++ m ++ post ∧ hasShape panClasses m = true) →
      ∃ pre m post, s.toList = pre ++ m ++ post ∧ hasShape panClasses m = true ∧
        extract_pan_number s = some (String.mk m) ∧
        (∀ pre' m' post', s.toList = pre' ++ m' ++ post' →
          hasShape panClasses m' = true → pre.length ≤ pre'.length)) ∧
    ((¬ ∃ pre m post, s.toList = pre ++ m ++ post ∧ hasShape panClasses m = true) →
      extract_pan_number s = none) := by
  have hne : panClasses ≠ [] := by simp [panClasses]
  have hchar := reFind_clsSeq panClasses hne s.toList
  cases hf : reFind panRE s.toList with
  | none =>
    constructor
    · intro ⟨pre, m, post, hsplit, hshape⟩
      exact absurd (extract_pan_eq_none_of_find hf) (extract_pan_of_shape hsplit hshape)
    · intro _
      unfold extract_pan_number
      rw [hf]
  | some v =>
    obtain ⟨pre, m, rest⟩ := v
    obtain ⟨g1, g2, g3, g4⟩ := hchar.1 pre m rest hf
    constructor
    · intro _
      refine ⟨pre, m, rest, g1, g2, ?_, ?_⟩
      · unfold extract_pan_number
        rw [hf]
      · intro pre' m' post' hsplit' hshape'
        by_contra hlt
        have hlt' : pre'.length < pre.length := Nat.lt_of_not_le hlt
        have hfalse := g4 pre'.length hlt'
        have htrue : clsMatch panClasses (s.toList.drop pre'.length) = true := by
          rw [hsplit', List.append_assoc, List.drop_left]
          exact clsMatch_of_shape hshape'
        rw [htrue] at hfalse
        exact Bool.noConfusion hfalse
    · intro hno
      exact absurd ⟨pre, m, rest, g1, g2⟩ hno

/-- A GSTIN-shaped window contains a PAN-shaped window: its characters
3 through 12 (five uppercase letters, four digits, one uppercase letter). -/
theorem pan_window_of_gstin {m : List Char}
    (h : hasShape gstinClasses m = true) :
    ∃ a b z, m = a ++ b ++ z ∧ hasShape panClasses b = true := by
  simp only [hasShape, Bool.and_eq_true, beq_iff_eq] at h
  obtain ⟨_, hcls⟩ := h
  have hsplit1 : clsMatch ([isDigitC, isDigitC] ++ panClasses) m = true ∧
      clsMatch _ (m.drop ([isDigitC, isDigitC] ++ panClasses).length) = true :=
    clsMatch_append_split.mp hcls
  have hpan : clsMatch panClasses (m.drop 2) = true :=
    (clsMatch_append_split.mp hsplit1.1).2
  refine ⟨m.take 2, (m.drop 2).take panClasses.length,
    (m.drop 2).drop panClasses.length, ?_, hasShape_take hpan⟩
  rw [List.append_assoc, List.take_append_drop, List.take_append_drop]

/-- C9: the PAN pattern has no anchoring, and characters 3 through 12 of any
GSTIN-shaped substring form a PAN-shaped substring, so the PAN extractor
never returns `None` on a text containing a GSTIN; on a document whose only
PAN-shaped text is inside the GSTIN, the returned `pan_number` is that
10-character fragment. -/
theorem C9_gstin_implies_pan :
    (∀ (s : String) (pre m post : List Char),
      s.toList = pre ++ m ++ post → hasShape gstinClasses m = true →
        extract_pan_number s ≠ none) ∧
    extract_pan_number "GSTIN 22ABCDE1234F1Z5" = some "ABCDE1234F" := by
  constructor
  · intro s pre m post hsplit hshape
    obtain ⟨a, b, z, hm, hb⟩ := pan_window_of_gstin hshape
    have hsp : s.toList = (pre ++ a) ++ b ++ (z ++ post) := by
      rw [hsplit, hm]
      simp [List.append_assoc]
    exact extract_pan_of_shape hsp hb
  · decide

/-- C3: `process_document` is total — the `try`/`except` wrapper catches
every exception from the body, so a record is always returned — and on a
path for which `os.path.exists` is false it returns the minimal record with
language `"unknown"`, confidence `0.0`, and the placeholder text
`"Document not found"`. -/
theorem C3_process_document_total_and_not_found
    (fs : String → Option String) (det : String → Option String)
    (tr : String → String → Option String) (p : String) :
    (∃ r : AnalysisResult, process_document fs det tr p = r) ∧
    (fs p = none →
      process_document fs det tr p =
        { metadata := ⟨"unknown", 0⟩, text := some "Document not found" }) := by
  refine ⟨⟨_, rfl⟩, fun h => ?_⟩
  unfold process_document process_documentE
  rw [h]

/-- Witness for C3 at a concrete missing path. -/
theorem C3_witness :
    process_document (fun _ => none) detEn trId "missing.pdf" =
      { metadata := ⟨"unknown", 0⟩, text := some "Document not found" } :=
  (C3_process_document_total_and_not_found (fun _ => none) detEn trId "missing.pdf").2 rfl

/-- C10: every record that the pipeline actually returns on a failure path —
empty or whitespace-only extracted text (the only `ok` outcome of
`analyze_text`), a missing document, or a caught top-level exception — has
`legal_sections = None` (not an empty list); only the successful-analysis
constructor call would assign a list, and it is never reached. -/
theorem C10_legal_sections_none_on_failure :
    (∀ det tr t r, analyze_text det tr t = Except.ok r → r.legal_sections = none) ∧
    (∀ fs det tr p, fs p = none →
      (process_document fs det tr p).legal_sections = none) ∧
    (∀ fs det tr p e, process_documentE fs det tr p = Except.error e →
      (process_document fs det tr p).legal_sections = none) := by
  refine ⟨?_, ?_, ?_⟩
  · intro det tr t r h
    unfold analyze_text at h
    split at h
    · cases h; rfl
    · simp only [] at h
      split at h <;> exact absurd h (by simp)
  · intro fs det tr p h
    unfold process_document process_documentE
    rw [h]
  · intro fs det tr p e h
    unfold process_document
    rw [h]

/-- Witness for C10 at concrete inputs on each failure path. -/
theorem C10_witness :
    noTextRecord.legal_sections = none ∧
    (process_document (fun _ => none) detEn trId "a.pdf").legal_sections = none ∧
    (process_document (fun _ => some "05-03-2024") detEn trId "b.pdf").legal_sections = none :=
  ⟨C10_legal_sections_none_on_failure.1 detEn trId "   " noTextRecord (by decide),
   C10_legal_sections_none_on_failure.2.1 (fun _ => none) detEn trId "a.pdf" rfl,
   C10_legal_sections_none_on_failure.2.2 (fun _ => some "05-03-2024") detEn trId "b.pdf"
     (PyErr.typeError "translated_text") (by decide)⟩

/-- Witness for C7 at a concrete embedded PAN. -/
theorem C7_witness :
    ∃ pre m post, "xABCDE1234Fy".toList = pre ++ m ++ post ∧
      hasShape panClasses m = true ∧
      extract_pan_number "xABCDE1234Fy" = some (String.mk m) ∧
      (∀ pre' m' post', "xABCDE1234Fy".toList = pre' ++ m' ++ post' →
        hasShape panClasses m' = true → pre.length ≤ pre'.length) :=
  (C7_pan_first_match "xABCDE1234Fy").1
    ⟨['x'], "ABCDE1234F".toList, ['y'], by decide, by decide⟩

/-- Witness for C9 at a concrete embedded GSTIN. -/
theorem C9_witness : extract_pan_number "ab 33FGHIJ5678K2Z9 cd" ≠ none :=
  C9_gstin_implies_pan.1 "ab 33FGHIJ5678K2Z9 cd"
    "ab ".toList "33FGHIJ5678K2Z9".toList " cd".toList (by decide) (by decide)

/-- A synthetic notice containing a valid PAN, a valid GSTIN, one parseable
date, a `"Rs."` amount, two `"Section N"` citations, and the keyword
`"penalty"`. -/
def c1Doc : String :=
  "penalty ABCDE1234F 22ABCDE1234F1Z5 1-1-2024 Rs. 5 Section 1 Section 2"

/-- C1 (code bug): on the synthetic document every constructor argument is
computed and populated as the claim requires — yet `analyze_text` returns no
record at all: the `AnalysisResult(...)` call at source lines 230-242 passes
`translated_text=`, a keyword the dataclass at lines 33-46 does not declare,
so the construction raises `TypeError` for every non-empty text and
`process_document` degrades to the minimal error record. -/
theorem C1_pipeline_raises_on_synthetic_document :
    assembled_args c1Doc =
      { pan_number := some "ABCDE1234F"
        gstin := some "22ABCDE1234F1Z5"
        notice_type := some "Penalty Notice"
        notice_date := some ⟨2024, 1, 1⟩
        penalty_amount := some ⟨5, "INR"⟩
        legal_sections := [⟨"1", none⟩, ⟨"2", none⟩]
        compliance_deadline := none } ∧
    analyze_text detEn trId c1Doc = Except.error (PyErr.typeError "translated_text") ∧
    process_document (fun _ => some c1Doc) detEn trId "doc.pdf" =
      { metadata := ⟨"unknown", 0⟩
        text := some ("Error processing document: " ++
          errMsg (PyErr.typeError "translated_text")) } :=
  ⟨by decide, by decide, by decide⟩

/-- A text on which the PAN extractor succeeds but the issuing-office
extractor raises (its third pattern matches and has no capture group). -/
def c2Doc : String := "ABCDE1234F Delhi Income Tax Office"

/-- C2 (code bug): a single field extractor failure does NOT degrade only
that field.  On `c2Doc` the PAN extractor succeeds, but
`extract_issuing_office` raises `IndexError` (pattern 3 matches and has no
group); the exception is not caught at the extractor boundary, so
`process_document` returns the minimal error record in which every sibling
field, including `pan_number`, is absent. -/
theorem C2_field_failure_degrades_whole_record :
    extract_pan_number c2Doc = some "ABCDE1234F" ∧
    extract_issuing_office c2Doc = Except.error PyErr.indexError ∧
    analyze_text detEn trId c2Doc = Except.error PyErr.indexError ∧
    process_document (fun _ => some c2Doc) detEn trId "doc.pdf" =
      { metadata := ⟨"unknown", 0⟩
        text := some ("Error processing document: " ++ errMsg PyErr.indexError) } ∧
    (process_document (fun _ => some c2Doc) detEn trId "doc.pdf").pan_number = none :=
  ⟨by decide, by decide, by decide, by decide, by decide⟩

/-- C4 (code bug): the assembly expressions implement exactly the claimed
date logic — zero dates give absent/absent, one extracted date sets
`notice_date` and leaves `compliance_deadline` absent, two or more set both
to the maximum — but the record construction raises `TypeError`
(`translated_text`), so no returned record ever carries the computed
values. -/
theorem C4_date_logic_computed_but_no_record :
    extract_dates "05-03-2024" = [⟨2024, 3, 5⟩] ∧
    (assembled_args "05-03-2024").notice_date = some ⟨2024, 3, 5⟩ ∧
    (assembled_args "05-03-2024").compliance_deadline = none ∧
    extract_dates "no dates at all" = [] ∧
    (assembled_args "no dates at all").notice_date = none ∧
    (assembled_args "no dates at all").compliance_deadline = none ∧
    extract_dates "05-03-2024 07-03-2024" = [⟨2024, 3, 5⟩, ⟨2024, 3, 7⟩] ∧
    (assembled_args "05-03-2024 07-03-2024").notice_date = some ⟨2024, 3, 7⟩ ∧
    (assembled_args "05-03-2024 07-03-2024").compliance_deadline = some ⟨2024, 3, 7⟩ ∧
    analyze_text detEn trId "05-03-2024" = Except.error (PyErr.typeError "translated_text") ∧
    (process_document (fun _ => some "05-03-2024") detEn trId "doc.pdf").notice_date = none :=
  ⟨by decide, by decide, by decide, by decide, by decide, by decide,
   by decide, by decide, by decide, by decide, by decide⟩

/-- C5 (code bug): the first two office patterns return the captured text
trimmed and a no-match text returns `None`, but when only the third pattern
matches the extractor raises `IndexError` instead of returning its text —
the pattern `[A-Z][a-z]+(?:\s+[A-Z][a-z]+)*\s*Income Tax Office` has no
capture group, so `match.group(1)` fails. -/
theorem C5_issuing_office_group_raises :
    extract_issuing_office "Issuing Office: Ward 5" = Except.ok (some "Ward 5") ∧
    extract_issuing_office "Office of the Commissioner" = Except.ok (some "Commissioner") ∧
    extract_issuing_office "Delhi Income Tax Office" = Except.error PyErr.indexError ∧
    extract_issuing_office "no match here" = Except.ok none :=
  ⟨by decide, by decide, by decide, by decide⟩

/-- A text containing both `"Rs. 10,000.00"` and `"INR 5,000"` in which an
earlier case-insensitive `"rs"` occurrence (inside `"Hours"`) is followed by
a number. -/
def c6Text : String := "Hours 7 Rs. 10,000.00 and INR 5,000"

/-- C6 counterexample: the claim's "a text containing both Rs. 10,000.00 and
INR 5,000 yields amount 10000.00" fails — the `Rs` pattern is unanchored and
case-insensitive, so on `c6Text` its first match is `"rs 7"` inside
`"Hours 7"` and the extractor returns 7, not 10000. -/
theorem C6_counterexample :
    c6Text = "Hours 7 " ++ "Rs. 10,000.00" ++ " and " ++ "INR 5,000" ∧
    extract_penalty_amount c6Text = some ⟨7, "INR"⟩ ∧
    extract_penalty_amount c6Text ≠ some ⟨10000, "INR"⟩ :=
  ⟨rfl, by decide, by decide⟩

/-- C6 (amended): the extractor tries the three amount patterns in fixed
order and stops at the first pattern that matches, parsing the captured
group after stripping comma separators; whenever the first (`Rs`) pattern
yields a parsed amount, that amount is the result; on the canonical text
`"Rs. 10,000.00 and INR 5,000"` (whose first `Rs`-pattern match captures
`"10,000.00"`) the result is 10000.00; the currency of any returned amount
is `"INR"`; and when no pattern yields a parseable number the field is
absent. -/
theorem C6_amended_amount_extractor :
    (∀ t a, extract_penalty_amount t = some a → a.currency = "INR") ∧
    (∀ t q, patAmount rsPre t = some q →
      extract_penalty_amount t = some ⟨q, "INR"⟩) ∧
    extract_penalty_amount "Rs. 10,000.00 and INR 5,000" = some ⟨10000, "INR"⟩ ∧
    (∀ t, patAmount rsPre t = none → patAmount inrPre t = none →
      patAmount penPre t = none → extract_penalty_amount t = none) := by
  refine ⟨?_, ?_, by decide, ?_⟩
  · intro t a h
    unfold extract_penalty_amount at h
    split at h
    · cases h; rfl
    · split at h
      · cases h; rfl
      · split at h
        · cases h; rfl
        · exact absurd h (by simp)
  · intro t q h
    unfold extract_penalty_amount
    rw [h]
  · intro t h1 h2 h3
    unfold extract_penalty_amount
    rw [h1, h2, h3]

/-- Witness for C6 at concrete inputs. -/
theorem C6_witness :
    extract_penalty_amount "Rs 5" = some ⟨5, "INR"⟩ ∧
    extract_penalty_amount "no amount" = none :=
  ⟨C6_amended_amount_extractor.2.1 "Rs 5" 5 (by decide),
   C6_amended_amount_extractor.2.2.2 "no amount" (by decide) (by decide) (by decide)⟩

/-! ### C8: the `DD/MM/YY` pattern re-matches the head of a `DD/MM/YYYY`
date, so one written date normally produces two extracted entries. -/

theorem mrun_cat_d12_nondigit {α : Type} {r : RE} {c : Char} {s : List Char}
    {k : List Char → Option α} (h : isDigitC c = false) :
    mrun (.cat d12 r) (c :: s) k = none := by
  simp [d12, dRE, mrun, h]

theorem tryAt_d12head_nondigit {r : RE} {c : Char} {s : List Char}
    (h : isDigitC c = false) : tryAt (.cat d12 r) (c :: s) = none := by
  unfold tryAt
  rw [mrun_cat_d12_nondigit h]

theorem findIterF_cons (f : Nat) (re : RE) (c : Char) (t : List Char) :
    findIterF (f + 1) re (c :: t) =
      match tryAt re (c :: t) with
      | some (m, rest) =>
        if m.isEmpty then findIterF f re t else m :: findIterF f re rest
      | none => findIterF f re t := rfl

theorem findIterF_skip {re : RE}
    (hfail : ∀ c s, isDigitC c = false → tryAt re (c :: s) = none)
    (pre : List Char) :
    ∀ (f : Nat) (s : List Char), (∀ c ∈ pre, isDigitC c = false) →
      findIterF (f + pre.length) re (pre ++ s) = findIterF f re s := by
  induction pre with
  | nil => intro f s _; simp
  | cons c p ih =>
    intro f s hnd
    have hc : isDigitC c = false := hnd c (by simp)
    have hrest : ∀ x ∈ p, isDigitC x = false := fun x hx => hnd x (by simp [hx])
    have hlen : f + (c :: p).length = (f + p.length) + 1 := by
      simp [List.length_cons]
      omega
    rw [hlen]
    show findIterF ((f + p.length) + 1) re (c :: (p ++ s)) = _
    rw [findIterF_cons, hfail c (p ++ s) hc]
    exact ih f s hrest

theorem tryAt_eq_of_mrun {re : RE} {D post : List Char}
    (h : mrun re (D ++ post) Option.some = some post) :
    tryAt re (D ++ post) = some (D, post) := by
  unfold tryAt
  rw [h]
  show some ((D ++ post).take ((D ++ post).length - post.length), post) = _
  have hl : (D ++ post).length - post.length = D.length := by
    simp [List.length_append]
  rw [hl, List.take_left]

theorem findIterF_step {re : RE} {f : Nat} {D post : List Char}
    (h : tryAt re (D ++ post) = some (D, post)) (hne : D.isEmpty = false) :
    findIterF (f + 1) re (D ++ post) = D :: findIterF f re post := by
  cases D with
  | nil => simp [List.isEmpty] at hne
  | cons d D2 =>
    simp only [List.cons_append] at h ⊢
    rw [findIterF_cons, h]
    simp

theorem mrun_dateP1_at {d1 d2 m1 m2 y1 y2 y3 y4 : Char} {post : List Char}
    (h1 : isDigitC d1 = true) (h2 : isDigitC d2 = true)
    (h3 : isDigitC m1 = true) (h4 : isDigitC m2 = true)
    (h5 : isDigitC y1 = true) (h6 : isDigitC y2 = true)
    (h7 : isDigitC y3 = true) (h8 : isDigitC y4 = true) :
    mrun dateP1 (d1 :: d2 :: '/' :: m1 :: m2 :: '/' :: y1 :: y2 :: y3 :: y4 :: post)
      Option.some = some post := by
  simp [dateP1, reCat, d12, dRE, chrRE, mrun, h1, h2, h3, h4, h5, h6, h7, h8]

theorem mrun_dateP4_at {d1 d2 m1 m2 y1 y2 : Char} {post : List Char}
    (h1 : isDigitC d1 = true) (h2 : isDigitC d2 = true)
    (h3 : isDigitC m1 = true) (h4 : isDigitC m2 = true)
    (h5 : isDigitC y1 = true) (h6 : isDigitC y2 = true) :
    mrun dateP4 (d1 :: d2 :: '/' :: m1 :: m2 :: '/' :: y1 :: y2 :: post)
      Option.some = some post := by
  simp [dateP4, reCat, d12, dRE, chrRE, mrun, h1, h2, h3, h4, h5, h6]

/-- C8 (amended): let a text consist of a digit-free prefix, a date written
in `DD/MM/YYYY` form, and an arbitrary suffix.  If the four-digit-year
parse succeeds (value `dt4`) and the two-digit-year reinterpretation of the
first eight characters also parses (value `dt2` — it fails only for Feb 29
of a leap year whose century prefix maps to a non-leap year under the
69-pivot), then the extractor output contains both `dt4` and `dt2`, and has
length at least two. -/
theorem C8_amended_two_entries
    (pre post : List Char) (d1 d2 m1 m2 y1 y2 y3 y4 : Char) (dt4 dt2 : Date)
    (hpre : ∀ c ∈ pre, isDigitC c = false)
    (h1 : isDigitC d1 = true) (h2 : isDigitC d2 = true)
    (h3 : isDigitC m1 = true) (h4 : isDigitC m2 = true)
    (h5 : isDigitC y1 = true) (h6 : isDigitC y2 = true)
    (h7 : isDigitC y3 = true) (h8 : isDigitC y4 = true)
    (hv4 : parse_date_str [d1, d2, '/', m1, m2, '/', y1, y2, y3, y4] = some dt4)
    (hv2 : parse_date_str [d1, d2, '/', m1, m2, '/', y1, y2] = some dt2) :
    dt4 ∈ extract_dates
      (String.mk (pre ++ [d1, d2, '/', m1, m2, '/', y1, y2, y3, y4] ++ post)) ∧
    dt2 ∈ extract_dates
      (String.mk (pre ++ [d1, d2, '/', m1, m2, '/', y1, y2, y3, y4] ++ post)) ∧
    2 ≤ (extract_dates
      (String.mk (pre ++ [d1, d2, '/', m1, m2, '/', y1, y2, y3, y4] ++ post))).length := by
  have hfail1 : ∀ c s, isDigitC c = false → tryAt dateP1 (c :: s) = none :=
    fun c s h => tryAt_d12head_nondigit h
  have hfail4 : ∀ c s, isDigitC c = false → tryAt dateP4 (c :: s) = none :=
    fun c s h => tryAt_d12head_nondigit h
  have ht1 : tryAt dateP1
      ([d1, d2, '/', m1, m2, '/', y1, y2, y3, y4] ++ post) =
      some ([d1, d2, '/', m1, m2, '/', y1, y2, y3, y4], post) :=
    tryAt_eq_of_mrun (mrun_dateP1_at h1 h2 h3 h4 h5 h6 h7 h8)
  have ht4 : tryAt dateP4
      ([d1, d2, '/', m1, m2, '/', y1, y2] ++ (y3 :: y4 :: post)) =
      some ([d1, d2, '/', m1, m2, '/', y1, y2], y3 :: y4 :: post) :=
    tryAt_eq_of_mrun (mrun_dateP4_at h1 h2 h3 h4 h5 h6)
  have hlen : (pre ++ [d1, d2, '/', m1, m2, '/', y1, y2, y3, y4] ++ post).length + 1 =
      (([d1, d2, '/', m1, m2, '/', y1, y2, y3, y4] ++ post).length + 1) + pre.length := by
    simp [List.length_append]
    omega
  have hassoc : pre ++ [d1, d2, '/', m1, m2, '/', y1, y2, y3, y4] ++ post =
      pre ++ ([d1, d2, '/', m1, m2, '/', y1, y2, y3, y4] ++ post) :=
    List.append_assoc _ _ _
  have hfind1 : findIter dateP1
      (pre ++ [d1, d2, '/', m1, m2, '/', y1, y2, y3, y4] ++ post) =
      [d1, d2, '/', m1, m2, '/', y1, y2, y3, y4] ::
        findIterF ([d1, d2, '/', m1, m2, '/', y1, y2, y3, y4] ++ post).length
          dateP1 post := by
    unfold findIter
    rw [hlen, hassoc,
      findIterF_skip hfail1 pre
        (([d1, d2, '/', m1, m2, '/', y1, y2, y3, y4] ++ post).length + 1)
        ([d1, d2, '/', m1, m2, '/', y1, y2, y3, y4] ++ post) hpre]
    exact findIterF_step ht1 (by simp)
  have hfind4 : findIter dateP4
      (pre ++ [d1, d2, '/', m1, m2, '/', y1, y2, y3, y4] ++ post) =
      [d1, d2, '/', m1, m2, '/', y1, y2] ::
        findIterF ([d1, d2, '/', m1, m2, '/', y1, y2, y3, y4] ++ post).length
          dateP4 (y3 :: y4 :: post) := by
    unfold findIter
    rw [hlen, hassoc,
      findIterF_skip hfail4 pre
        (([d1, d2, '/', m1, m2, '/', y1, y2, y3, y4] ++ post).length + 1)
        ([d1, d2, '/', m1, m2, '/', y1, y2, y3, y4] ++ post) hpre]
    exact findIterF_step ht4 (by simp)
  have hexp : extract_dates
      (String.mk (pre ++ [d1, d2, '/', m1, m2, '/', y1, y2, y3, y4] ++ post)) =
      ((findIter dateP1 (pre ++ [d1, d2, '/', m1, m2, '/', y1, y2, y3, y4] ++ post)).filterMap
          parse_date_str) ++
        (((findIter dateP2 (pre ++ [d1, d2, '/', m1, m2, '/', y1, y2, y3, y4] ++ post)).filterMap
          parse_date_str) ++
          (((findIter dateP3 (pre ++ [d1, d2, '/', m1, m2, '/', y1, y2, y3, y4] ++ post)).filterMap
            parse_date_str) ++
            (((findIter dateP4 (pre ++ [d1, d2, '/', m1, m2, '/', y1, y2, y3, y4] ++ post)).filterMap
              parse_date_str) ++ []))) := rfl
  rw [hexp, hfind1, hfind4, List.filterMap_cons, List.filterMap_cons, hv4, hv2]
  refine ⟨by simp, by simp, ?_⟩
  simp [List.length_append]
  omega

/-- C8 counterexample: the text `"29/02/2104"` contains one `DD/MM/YYYY`
date that parses as a valid calendar date (2104 is a leap year), but the
two-digit-year reinterpretation `"29/02/21"` maps to 2021, which is not a
leap year, so the `strptime` call raises `ValueError` and the candidate is
discarded: the output has exactly one entry, not at least two. -/
theorem C8_counterexample :
    extract_dates "29/02/2104" = [⟨2104, 2, 29⟩] ∧
    parse_date_str "29/02/21".toList = none ∧
    ¬ 2 ≤ (extract_dates "29/02/2104").length :=
  ⟨by decide, by decide, by decide⟩

/-- Witness for C8 at the concrete text `"dated 05/03/2024 x"`. -/
theorem C8_witness :
    (⟨2024, 3, 5⟩ : Date) ∈ extract_dates
      (String.mk ("dated ".toList ++ "05/03/2024".toList ++ " x".toList)) ∧
    (⟨2020, 3, 5⟩ : Date) ∈ extract_dates
      (String.mk ("dated ".toList ++ "05/03/2024".toList ++ " x".toList)) ∧
    2 ≤ (extract_dates
      (String.mk ("dated ".toList ++ "05/03/2024".toList ++ " x".toList))).length :=
  C8_amended_two_entries "dated ".toList " x".toList '0' '5' '0' '3' '2' '0' '2' '4'
    ⟨2024, 3, 5⟩ ⟨2020, 3, 5⟩ (by decide) rfl rfl rfl rfl rfl rfl rfl rfl
    (by decide) (by decide)

end LegalDoc
